import Mathlib

/-!
Shallow embedding of the `client_capture` crate (src/lib.rs): the geometry
and cropping unit `Capture.to_img`, the per-frame callback
`Capture.on_frame_arrived`, and the session controller `ClientCapture`
(`new` / `start` / `pause` / `resume` / `stop` / `is_running` / `get_img`),
together with proofs about them.

Machine integers are modelled as `Nat` / `Int` with explicit two's-complement
wrapping where the Rust code performs `as` casts or (release-mode) wrapping
arithmetic on `i32` / `u32` values.
-/

namespace ClientCaptureSpec

/-- Rust `u32 as i32` cast: reinterpret a `u32` value (a `Nat` below `2^32`)
as a signed 32-bit value, wrapping at `2^31`. Models the casts
`client_xywh.2 as i32` etc. in `Capture::to_img` (src/lib.rs lines 55-56). -/
def toI32 (n : Nat) : Int :=
  if n < 2147483648 then (n : Int) else (n : Int) - 4294967296

/-- Wrapping of an integer into the signed 32-bit range, as performed by
release-mode `i32` addition. -/
def wrapI32 (n : Int) : Int :=
  (n + 2147483648) % 4294967296 - 2147483648

/-- Rust `i32 as u32` cast (two's-complement reinterpretation). -/
def toU32 (n : Int) : Nat :=
  (n % 4294967296).toNat

/-- Release-mode wrapping `u32` addition. -/
def u32add (a b : Nat) : Nat :=
  (a + b) % 4294967296

/-- Release-mode wrapping `u32` subtraction (arguments are `u32` values,
i.e. below `2^32`). -/
def u32sub (a b : Nat) : Nat :=
  (a + 4294967296 - b % 4294967296) % 4294967296

/-- Screen rectangle `(x, y, width, height)` as returned by the geometry
provider (`get_window_xywh_exclude_shadow` / `get_client_xywh`): `x`, `y`
are `i32` screen coordinates, `w`, `h` are `u32` extents. -/
structure Rect where
  x : Int
  y : Int
  w : Nat
  h : Nat

/-- Raw captured frame: dimensions as reported by `frame.width()` /
`frame.height()`, plus the RGBA pixel at each `(x, y)` position (a pixel is
abstracted as one value standing for its four bytes). -/
structure RawFrame where
  width : Nat
  height : Nat
  pix : Nat → Nat → Nat

/-- Tightly packed pixel buffer produced by the backend's crop. -/
structure Buffer where
  w : Nat
  h : Nat
  pix : Nat → Nat → Nat

/-- RGBA image (`image::RgbaImage` wrapped in `DynamicImage`). -/
structure Image where
  width : Nat
  height : Nat
  pix : Nat → Nat → Nat

/-- Border inset configured on the session: extra pixels to trim, in the
source's tuple order 左上右下 = (left, top, right, bottom). -/
structure Border where
  left : Nat
  top : Nat
  right : Nat
  bottom : Nat

/-- Typed rendering of the `anyhow!` error messages produced along the
cropping path of `Capture::to_img`. -/
inductive CropError where
  /-- "窗口大小与帧大小不一致" (src/lib.rs line 47) -/
  | frameSizeMismatch
  /-- "窗口大小为0" (src/lib.rs line 51) -/
  | zeroClientArea
  /-- "客户区域超出窗口范围" (src/lib.rs line 58) -/
  | clientOutsideWindow
  /-- "客户区域小于边框大小" (src/lib.rs line 67) -/
  | borderExceedsClient
  /-- An error propagated from `frame.buffer_crop(..)?` or
  `as_raw_nopadding_buffer()?`. -/
  | cropFailed
  /-- "转换为RgbaImage失败" (src/lib.rs line 79) -/
  | bufferConstructionFailed
deriving DecidableEq

/-- Error returned by `ClientCapture::get_img` ("图像为空" / "图像已过期"). -/
inductive GetImgError where
  | noImageYet
  | imageStale
deriving DecidableEq

/-- Error returned by `ClientCapture::start` ("截图线程正在运行"). -/
inductive StartError where
  | alreadyRunning
deriving DecidableEq

/-- Modelled from the spec: `windows_capture`'s `Frame::buffer_crop`
followed by `as_raw_nopadding_buffer` is not part of this repository; per
spec step 6 it crops the frame buffer to the half-open rectangle
`[sx, ex) x [sy, ey)`, producing a tightly packed buffer, and is fallible
(the call sites use `?`). Out-of-range requests fail. -/
def buffer_crop (f : RawFrame) (sx sy ex ey : Nat) : Except CropError Buffer :=
  if sx ≤ ex ∧ sy ≤ ey ∧ ex ≤ f.width ∧ ey ≤ f.height then
    .ok ⟨ex - sx, ey - sy, fun i j => f.pix (sx + i) (sy + j)⟩
  else
    .error .cropFailed

/-- Modelled from the spec: `image::RgbaImage::from_raw` is not part of this
repository; per spec step 7 it constructs an RGBA image at the given
width/height from the buffer, failing when the buffer length does not match
`width * height * 4`. Pixels are reinterpreted row-major. -/
def rgba_from_raw (w h : Nat) (b : Buffer) : Option Image :=
  if 4 * b.w * b.h = 4 * w * h then
    some ⟨w, h, fun x y => b.pix ((y * w + x) % max b.w 1) ((y * w + x) / max b.w 1)⟩
  else
    none

/-- Embedding of src/lib.rs lines 69-80: crop the frame with wrapping `u32`
argument arithmetic (`client_xy_in_window + border`, `client_xy_in_window +
client size - border`), then hand the tightly packed buffer to
`RgbaImage::from_raw` at the client dimensions `(cw, ch)` — the dimensions
the source passes at line 78. `cxwX`/`cxwY` is the client origin relative
to the window origin. -/
def crop_and_build (border : Border) (frame : RawFrame) (cxwX cxwY cw ch : Nat) :
    Except CropError Image :=
  match buffer_crop frame (u32add cxwX border.left) (u32add cxwY border.top)
      (u32sub (u32add cxwX cw) border.right)
      (u32sub (u32add cxwY ch) border.bottom) with
  | .error e => .error e
  | .ok buf =>
    match rgba_from_raw cw ch buf with
    | some img => .ok img
    | none => .error .bufferConstructionFailed

/-- Embedding of `Capture::to_img` (src/lib.rs lines 43-81), with the two
geometry reads (window rect excluding shadow, client rect) supplied as
already-successful inputs. Follows the source's checks in order:
frame-size mismatch, zero client area, client outside window (with the
source's `as i32` casts and wrapping sums), border exceeding the client,
then the crop and `RgbaImage::from_raw`. -/
def to_img (border : Border) (frame : RawFrame) (window client : Rect) :
    Except CropError Image :=
  if window.w ≠ frame.width ∨ window.h ≠ frame.height then
    .error .frameSizeMismatch
  else if client.w = 0 ∨ client.h = 0 then
    .error .zeroClientArea
  else if client.x < window.x ∨ client.y < window.y
      ∨ wrapI32 (client.x + toI32 client.w) > wrapI32 (window.x + toI32 window.w)
      ∨ wrapI32 (client.y + toI32 client.h) > wrapI32 (window.y + toI32 window.h) then
    .error .clientOutsideWindow
  else if client.w < u32add border.left border.right
      ∨ client.h < u32add border.top border.bottom then
    .error .borderExceedsClient
  else
    crop_and_build border frame (toU32 (client.x - window.x))
      (toU32 (client.y - window.y)) client.w client.h

/-- Embedding of `Capture::on_frame_arrived` (src/lib.rs lines 93-123).
`stopped` and `paused` are the current values of the stop/pause watch
channels, `slot` is the current value of the image watch channel, `now` is
the `Instant::now()` timestamp, and `sendOk` tells whether `img_tx.send`
succeeds (it fails only when every receiver has been dropped, in which case
the value is not stored). Returns the new channel value, whether backend
shutdown was requested (`capture_control.stop()`), and whether the callback
returned `Ok`. -/
def on_frame_arrived (stopped paused : Bool) (border : Border)
    (frame : RawFrame) (window client : Rect) (slot : Option (Image × Nat))
    (now : Nat) (sendOk : Bool) : Option (Image × Nat) × Bool × Bool :=
  if stopped then
    (slot, true, true)
  else if paused then
    (slot, false, true)
  else
    match to_img border frame window client with
    | .ok img => if sendOk then (some (img, now), false, true) else (slot, false, true)
    | .error _ => (slot, false, true)

/-- State of a `ClientCapture` session (src/lib.rs lines 131-144). The watch
channels are modelled by their current values; `slot` is the image channel's
value (timestamps are `Nat` instants); `tasks` records every background loop
task ever spawned by `start`, `true` meaning the task has finished, with
`capture_handle` corresponding to the last entry. -/
structure ClientCapture where
  window_class : String
  window_title : String
  border : Border
  paused : Bool
  stopped : Bool
  slot : Option (Image × Nat)
  tasks : List Bool
  delay : Nat

/-- Embedding of `ClientCapture::new` (src/lib.rs lines 153-175): channels
initialised to `false` / `false` / `None`, no background task, border
defaulting to `(0,0,0,0)` and delay to 50 ms. -/
def ClientCapture.new (wc wt : String) (border : Option Border)
    (delay : Option Nat) : ClientCapture :=
  ⟨wc, wt, border.getD ⟨0, 0, 0, 0⟩, false, false, none, [], delay.getD 50⟩

/-- Embedding of `ClientCapture::is_running` (src/lib.rs lines 233-239):
true iff `capture_handle` holds a task that has not finished. -/
def ClientCapture.is_running (s : ClientCapture) : Bool :=
  match s.tasks.getLast? with
  | some fin => !fin
  | none => false

/-- Embedding of `ClientCapture::start` (src/lib.rs lines 181-230): fails
with `AlreadyRunning` when `is_running` (returning before touching any
state); otherwise resets the stop and pause channels to `false` and spawns
a new, unfinished background loop task. -/
def ClientCapture.start (s : ClientCapture) : Except StartError Unit × ClientCapture :=
  if s.is_running then
    (.error .alreadyRunning, s)
  else
    (.ok (), { s with stopped := false, paused := false, tasks := s.tasks ++ [false] })

/-- Embedding of `ClientCapture::pause` (src/lib.rs lines 242-244). -/
def ClientCapture.pause (s : ClientCapture) : ClientCapture :=
  { s with paused := true }

/-- Embedding of `ClientCapture::resume` (src/lib.rs lines 247-249). -/
def ClientCapture.resume (s : ClientCapture) : ClientCapture :=
  { s with paused := false }

/-- Embedding of `ClientCapture::stop` (src/lib.rs lines 252-254). -/
def ClientCapture.stop (s : ClientCapture) : ClientCapture :=
  { s with stopped := true }

/-- Embedding of `ClientCapture::get_img` (src/lib.rs lines 260-271): reads
(`borrow().clone()`) the image channel's current value without writing to
it, then applies the staleness check `time.elapsed() > self.delay`. Returns
the result together with the session state after the call. -/
def ClientCapture.get_img (s : ClientCapture) (now : Nat) :
    Except GetImgError Image × ClientCapture :=
  match s.slot with
  | some (img, t0) =>
      if now - t0 > s.delay then (.error .imageStale, s) else (.ok img, s)
  | none => (.error .noImageYet, s)

/-- Events a session can undergo: the controller's public operations, a
background loop task finishing, and the capture backend delivering a frame
(which runs `on_frame_arrived` against the session's channel values). -/
inductive Event where
  | startE
  | pauseE
  | resumeE
  | stopE
  | finishE (i : Nat)
  | frameE (frame : RawFrame) (window client : Rect) (now : Nat) (sendOk : Bool)
  | getImgE (now : Nat)

/-- One step of the session's evolution under an event. -/
def stepEvent (s : ClientCapture) (e : Event) : ClientCapture :=
  match e with
  | .startE => (s.start).2
  | .pauseE => s.pause
  | .resumeE => s.resume
  | .stopE => s.stop
  | .finishE i => { s with tasks := s.tasks.set i true }
  | .frameE f w c now sendOk =>
      { s with slot := (on_frame_arrived s.stopped s.paused s.border f w c s.slot now sendOk).1 }
  | .getImgE now => (s.get_img now).2

/-- States reachable from a freshly constructed session. -/
inductive Reachable : ClientCapture → Prop where
  | init : ∀ wc wt b d, Reachable (ClientCapture.new wc wt b d)
  | step : ∀ s e, Reachable s → Reachable (stepEvent s e)

/-- Number of background loop tasks that are still active (not finished). -/
def activeTasks (s : ClientCapture) : Nat :=
  s.tasks.count false

/-! ## Helper lemmas -/

theorem toI32_eq_self {n : Nat} (h : n < 2147483648) : toI32 n = n := by
  unfold toI32
  rw [if_pos h]

theorem wrapI32_eq_self {n : Int} (h1 : -2147483648 ≤ n) (h2 : n < 2147483648) :
    wrapI32 n = n := by
  unfold wrapI32
  rw [Int.emod_eq_of_lt (by omega) (by omega)]
  omega

theorem buffer_crop_error_elim {f : RawFrame} {sx sy ex ey : Nat} {e : CropError}
    (h : buffer_crop f sx sy ex ey = .error e) : e = .cropFailed := by
  unfold buffer_crop at h
  split at h
  · exact Except.noConfusion h
  · exact (Except.error.inj h).symm

theorem crop_and_build_error_elim {b : Border} {f : RawFrame} {x y cw ch : Nat}
    {e : CropError} (h : crop_and_build b f x y cw ch = .error e) :
    e = .cropFailed ∨ e = .bufferConstructionFailed := by
  unfold crop_and_build at h
  split at h
  · rename_i e' heq
    exact .inl ((Except.error.inj h).symm.trans (buffer_crop_error_elim heq))
  · split at h
    · exact Except.noConfusion h
    · exact .inr (Except.error.inj h).symm

theorem crop_and_build_ne_early {b : Border} {f : RawFrame} {x y cw ch : Nat}
    {e : CropError} (h1 : e ≠ .cropFailed) (h2 : e ≠ .bufferConstructionFailed) :
    crop_and_build b f x y cw ch ≠ .error e := by
  intro h
  rcases crop_and_build_error_elim h with h' | h'
  · exact h1 h'
  · exact h2 h'

theorem to_img_eq_frameSizeMismatch_iff (b : Border) (f : RawFrame) (w c : Rect) :
    to_img b f w c = .error .frameSizeMismatch
      ↔ (w.w ≠ f.width ∨ w.h ≠ f.height) := by
  unfold to_img
  split
  · rename_i h
    exact iff_of_true rfl h
  · rename_i h
    apply iff_of_false ?_ h
    split
    · exact fun he => CropError.noConfusion (Except.error.inj he)
    · split
      · exact fun he => CropError.noConfusion (Except.error.inj he)
      · split
        · exact fun he => CropError.noConfusion (Except.error.inj he)
        · exact crop_and_build_ne_early (by intro hx; exact CropError.noConfusion hx)
            (by intro hx; exact CropError.noConfusion hx)

theorem to_img_eq_zeroClientArea_iff (b : Border) (f : RawFrame) (w c : Rect) :
    to_img b f w c = .error .zeroClientArea
      ↔ (w.w = f.width ∧ w.h = f.height ∧ (c.w = 0 ∨ c.h = 0)) := by
  unfold to_img
  split
  · rename_i h
    apply iff_of_false (fun he => CropError.noConfusion (Except.error.inj he))
    intro hc
    exact h.elim (fun h' => h' hc.1) (fun h' => h' hc.2.1)
  · rename_i h
    push_neg at h
    split
    · rename_i h2
      exact iff_of_true rfl ⟨h.1, h.2, h2⟩
    · rename_i h2
      apply iff_of_false ?_ (fun hc => h2 hc.2.2)
      split
      · exact fun he => CropError.noConfusion (Except.error.inj he)
      · split
        · exact fun he => CropError.noConfusion (Except.error.inj he)
        · exact crop_and_build_ne_early (by intro hx; exact CropError.noConfusion hx)
            (by intro hx; exact CropError.noConfusion hx)

theorem to_img_eq_clientOutsideWindow_iff (b : Border) (f : RawFrame) (w c : Rect) :
    to_img b f w c = .error .clientOutsideWindow
      ↔ (w.w = f.width ∧ w.h = f.height ∧ c.w ≠ 0 ∧ c.h ≠ 0
          ∧ (c.x < w.x ∨ c.y < w.y
              ∨ wrapI32 (c.x + toI32 c.w) > wrapI32 (w.x + toI32 w.w)
              ∨ wrapI32 (c.y + toI32 c.h) > wrapI32 (w.y + toI32 w.h))) := by
  unfold to_img
  split
  · rename_i h
    apply iff_of_false (fun he => CropError.noConfusion (Except.error.inj he))
    intro hc
    exact h.elim (fun h' => h' hc.1) (fun h' => h' hc.2.1)
  · rename_i h
    push_neg at h
    split
    · rename_i h2
      apply iff_of_false (fun he => CropError.noConfusion (Except.error.inj he))
      intro hc
      exact h2.elim (fun h' => hc.2.2.1 h') (fun h' => hc.2.2.2.1 h')
    · rename_i h2
      push_neg at h2
      split
      · rename_i h3
        exact iff_of_true rfl ⟨h.1, h.2, h2.1, h2.2, h3⟩
      · rename_i h3
        apply iff_of_false ?_ (fun hc => h3 hc.2.2.2.2)
        split
        · exact fun he => CropError.noConfusion (Except.error.inj he)
        · exact crop_and_build_ne_early (by intro hx; exact CropError.noConfusion hx)
            (by intro hx; exact CropError.noConfusion hx)

theorem to_img_eq_borderExceedsClient_iff (b : Border) (f : RawFrame) (w c : Rect) :
    to_img b f w c = .error .borderExceedsClient
      ↔ (w.w = f.width ∧ w.h = f.height ∧ c.w ≠ 0 ∧ c.h ≠ 0
          ∧ ¬(c.x < w.x ∨ c.y < w.y
              ∨ wrapI32 (c.x + toI32 c.w) > wrapI32 (w.x + toI32 w.w)
              ∨ wrapI32 (c.y + toI32 c.h) > wrapI32 (w.y + toI32 w.h))
          ∧ (c.w < u32add b.left b.right ∨ c.h < u32add b.top b.bottom)) := by
  unfold to_img
  split
  · rename_i h
    apply iff_of_false (fun he => CropError.noConfusion (Except.error.inj he))
    intro hc
    exact h.elim (fun h' => h' hc.1) (fun h' => h' hc.2.1)
  · rename_i h
    push_neg at h
    split
    · rename_i h2
      apply iff_of_false (fun he => CropError.noConfusion (Except.error.inj he))
      intro hc
      exact h2.elim (fun h' => hc.2.2.1 h') (fun h' => hc.2.2.2.1 h')
    · rename_i h2
      push_neg at h2
      split
      · rename_i h3
        apply iff_of_false (fun he => CropError.noConfusion (Except.error.inj he))
        intro hc
        exact hc.2.2.2.2.1 h3
      · rename_i h3
        split
        · rename_i h4
          exact iff_of_true rfl ⟨h.1, h.2, h2.1, h2.2, h3, h4⟩
        · rename_i h4
          apply iff_of_false ?_ (fun hc => h4 hc.2.2.2.2.2)
          exact crop_and_build_ne_early (by intro hx; exact CropError.noConfusion hx)
            (by intro hx; exact CropError.noConfusion hx)

theorem get_img_snd (s : ClientCapture) (now : Nat) : (s.get_img now).2 = s := by
  unfold ClientCapture.get_img
  split
  · split <;> rfl
  · rfl

/-- All tasks except possibly the last one are finished. -/
def tasksFrontDone (l : List Bool) : Prop :=
  ∀ i, i + 1 < l.length → l.getD i true = true

theorem tasksFrontDone_nil : tasksFrontDone [] := by
  intro i hi
  simp at hi

theorem tasksFrontDone_set_true {l : List Bool} (h : tasksFrontDone l) (i : Nat) :
    tasksFrontDone (l.set i true) := by
  intro j hj
  rw [List.length_set] at hj
  by_cases hij : i = j
  · subst hij
    have hlt : i < l.length := by omega
    rw [List.getD_eq_getElem?_getD, List.getElem?_set_self']
    simp [List.getElem?_eq_getElem hlt]
  · rw [List.getD_eq_getElem?_getD, List.getElem?_set_ne hij, ← List.getD_eq_getElem?_getD]
    exact h j hj

theorem tasksAllDone_of_lastDone {l : List Bool} (h : tasksFrontDone l)
    (hl : l.getLast? = none ∨ l.getLast? = some true) :
    ∀ i, l.getD i true = true := by
  intro i
  by_cases hi : i < l.length
  · by_cases hlast : i + 1 < l.length
    · exact h i hlast
    · have hi1 : i = l.length - 1 := by omega
      have hne : l ≠ [] := by
        intro hx
        subst hx
        simp at hi
      rcases hl with hl | hl
      · rw [List.getLast?_eq_none_iff] at hl
        exact absurd hl hne
      · rw [List.getLast?_eq_getElem? l] at hl
        rw [List.getD_eq_getElem?_getD, hi1, hl]
        rfl
  · rw [List.getD_eq_default _ _ (by omega)]

theorem tasksFrontDone_append {l : List Bool} (h : ∀ i, l.getD i true = true) :
    tasksFrontDone (l ++ [false]) := by
  intro i hi
  rw [List.length_append, List.length_singleton] at hi
  rw [List.getD_append _ _ _ _ (by omega)]
  exact h i

theorem count_false_le_one {l : List Bool} (h : tasksFrontDone l) :
    l.count false ≤ 1 := by
  induction l with
  | nil => simp
  | cons a t ih =>
    cases t with
    | nil =>
      cases a <;> simp [List.count_cons]
    | cons b t' =>
      have ha : a = true := h 0 (by simp)
      subst ha
      have ht : tasksFrontDone (b :: t') := by
        intro i hi
        have := h (i + 1) (by simpa using Nat.succ_lt_succ hi)
        simpa using this
      have := ih ht
      simpa [List.count_cons] using this

theorem isRunning_false_lastDone {s : ClientCapture} (h : s.is_running = false) :
    s.tasks.getLast? = none ∨ s.tasks.getLast? = some true := by
  unfold ClientCapture.is_running at h
  revert h
  cases hl : s.tasks.getLast? with
  | none => exact fun _ => .inl rfl
  | some fin =>
    cases fin with
    | false => intro h; exact absurd h (by simp)
    | true => exact fun _ => .inr rfl

theorem reachable_tasksFrontDone {s : ClientCapture} (h : Reachable s) :
    tasksFrontDone s.tasks := by
  induction h with
  | init wc wt b d => exact tasksFrontDone_nil
  | step s e _ ih =>
    cases e with
    | startE =>
      show tasksFrontDone ((s.start).2).tasks
      unfold ClientCapture.start
      by_cases hr : s.is_running
      · rw [if_pos hr]
        exact ih
      · rw [if_neg hr]
        exact tasksFrontDone_append
          (tasksAllDone_of_lastDone ih
            (isRunning_false_lastDone (Bool.of_not_eq_true hr)))
    | pauseE => exact ih
    | resumeE => exact ih
    | stopE => exact ih
    | finishE i => exact tasksFrontDone_set_true ih i
    | frameE f w c now sendOk => exact ih
    | getImgE now =>
      show tasksFrontDone ((s.get_img now).2).tasks
      rw [get_img_snd]
      exact ih

/-! ## Claim theorems -/

/-- Claim C1 (code bug): on the claim's own input — window rect
(0,0,800,600), client rect (0,30,800,570), border (10,20,10,20), frame
800x600 — `Capture::to_img` does not succeed with a 780x530 image as the
claim states: because src/lib.rs line 78 passes the client dimensions
(800,570) to `RgbaImage::from_raw` while the cropped buffer only holds
780*530 pixels, the buffer length check fails and `to_img` returns the
buffer-construction error. -/
theorem c1_border_crop_fails_on_spec_example :
    to_img ⟨10, 20, 10, 20⟩ ⟨800, 600, fun _ _ => 0⟩ ⟨0, 0, 800, 600⟩ ⟨0, 30, 800, 570⟩
      = .error .bufferConstructionFailed := by
  rfl

/-- Claim C2: for a session holding a sample delivered at `t0`, `get_img`
at time `now` returns the image iff `now - t0 ≤ delay` and fails with the
stale-image error iff `now - t0 > delay`; with no sample ever delivered it
fails with the no-image error, decided before any staleness check. -/
theorem c2_get_img_staleness :
    ∀ (s : ClientCapture) (img : Image) (t0 now : Nat),
      (s.slot = some (img, t0) → t0 ≤ now →
        ((s.get_img now).1 = .ok img ↔ now - t0 ≤ s.delay)
          ∧ ((s.get_img now).1 = .error .imageStale ↔ now - t0 > s.delay))
      ∧ (s.slot = none → (s.get_img now).1 = .error .noImageYet) := by
  intro s img t0 now
  constructor
  · intro hs _
    have hfst : (s.get_img now).1
        = if now - t0 > s.delay then (.error .imageStale : Except GetImgError Image)
          else .ok img := by
      unfold ClientCapture.get_img
      rw [hs]
      dsimp only
      split <;> rfl
    rw [hfst]
    by_cases hc : now - t0 > s.delay
    · rw [if_pos hc]
      exact ⟨⟨fun h => Except.noConfusion h, fun h => absurd hc (by omega)⟩,
        ⟨fun _ => hc, fun _ => rfl⟩⟩
    · rw [if_neg hc]
      exact ⟨⟨fun _ => by omega, fun _ => rfl⟩,
        ⟨fun h => Except.noConfusion h, fun h => absurd h hc⟩⟩
  · intro hs
    have hfst : (s.get_img now).1 = .error .noImageYet := by
      unfold ClientCapture.get_img
      rw [hs]
    exact hfst

/-- Witness for C2 at a concrete session: a sample delivered at time 5 and
read at time 10 with the default 50 ms delay is returned. -/
theorem c2_get_img_staleness_witness :
    (({ ClientCapture.new "c" "t" none none with
        slot := some (⟨1, 1, fun _ _ => 0⟩, 5) } : ClientCapture).get_img 10).1
      = .ok ⟨1, 1, fun _ _ => 0⟩ :=
  ((c2_get_img_staleness _ ⟨1, 1, fun _ _ => 0⟩ 5 10).1 rfl (by omega)).1.mpr (by decide)

/-- Counterexample to Claim C3 as stated: for a 50x50 client rect and
border (30,0,20,0) the horizontal border sum 30+20 = 50 is ≥ the client
width, so the claim demands the border-exceeds-client error, but the
source's strict check `client.w < left + right` (src/lib.rs line 64)
passes, the crop degenerates to a zero-width buffer, and `to_img` fails
with the buffer-construction error instead. -/
theorem c3_border_check_counterexample :
    to_img ⟨30, 0, 20, 0⟩ ⟨50, 50, fun _ _ => 0⟩ ⟨0, 0, 50, 50⟩ ⟨0, 0, 50, 50⟩
        = .error .bufferConstructionFailed
      ∧ to_img ⟨30, 0, 20, 0⟩ ⟨50, 50, fun _ _ => 0⟩ ⟨0, 0, 50, 50⟩ ⟨0, 0, 50, 50⟩
        ≠ .error .borderExceedsClient
      ∧ 30 + 20 ≥ 50 := by
  have he : to_img ⟨30, 0, 20, 0⟩ ⟨50, 50, fun _ _ => 0⟩ ⟨0, 0, 50, 50⟩ ⟨0, 0, 50, 50⟩
      = .error .bufferConstructionFailed := by rfl
  refine ⟨he, ?_, by omega⟩
  intro h
  rw [he] at h
  exact CropError.noConfusion (Except.error.inj h)

/-- Claim C3 (amended): `to_img` fails with the border-exceeds-client error
iff the earlier checks pass (frame matches window, client nonempty, client
inside window per the source's check) and border.left + border.right is
STRICTLY greater than the client width, or border.top + border.bottom
strictly greater than the client height, sums taken in wrapping 32-bit
arithmetic; the claim's 50x50 client with border (30,0,30,0) does fail with
this error. -/
theorem c3_border_check_strict :
    (∀ (b : Border) (f : RawFrame) (w c : Rect),
      to_img b f w c = .error .borderExceedsClient
        ↔ (w.w = f.width ∧ w.h = f.height ∧ c.w ≠ 0 ∧ c.h ≠ 0
            ∧ ¬(c.x < w.x ∨ c.y < w.y
                ∨ wrapI32 (c.x + toI32 c.w) > wrapI32 (w.x + toI32 w.w)
                ∨ wrapI32 (c.y + toI32 c.h) > wrapI32 (w.y + toI32 w.h))
            ∧ (c.w < u32add b.left b.right ∨ c.h < u32add b.top b.bottom)))
    ∧ to_img ⟨30, 0, 30, 0⟩ ⟨50, 50, fun _ _ => 0⟩ ⟨0, 0, 50, 50⟩ ⟨0, 0, 50, 50⟩
        = .error .borderExceedsClient :=
  ⟨to_img_eq_borderExceedsClient_iff, by rfl⟩

/-- Claim C4: `to_img` fails with the frame-size-mismatch error iff the
frame's dimensions differ from the window rect's, before every other
validation (the right-hand side places no condition on the client rect or
border); in particular an 801x600 frame against an 800x600 window rect
yields that error. -/
theorem c4_frame_size_check :
    (∀ (b : Border) (f : RawFrame) (w c : Rect),
      to_img b f w c = .error .frameSizeMismatch
        ↔ (f.width ≠ w.w ∨ f.height ≠ w.h))
    ∧ to_img ⟨0, 0, 0, 0⟩ ⟨801, 600, fun _ _ => 0⟩ ⟨0, 0, 800, 600⟩ ⟨0, 30, 800, 570⟩
        = .error .frameSizeMismatch := by
  constructor
  · intro b f w c
    rw [to_img_eq_frameSizeMismatch_iff]
    constructor
    · rintro (h | h)
      · exact .inl (Ne.symm h)
      · exact .inr (Ne.symm h)
    · rintro (h | h)
      · exact .inl (Ne.symm h)
      · exact .inr (Ne.symm h)
  · rfl

/-- Claim C5: `on_frame_arrived` requests backend shutdown and publishes
nothing when stopped; returns success without publishing when paused; else
publishes (image, now) on cropping and send success, publishes nothing on
any cropping or send failure, and always returns success. -/
theorem c5_on_frame_arrived_contract :
    ∀ (stopped paused : Bool) (b : Border) (f : RawFrame) (w c : Rect)
      (slot : Option (Image × Nat)) (now : Nat) (sendOk : Bool),
      (stopped = true →
        on_frame_arrived stopped paused b f w c slot now sendOk = (slot, true, true))
      ∧ (stopped = false → paused = true →
        on_frame_arrived stopped paused b f w c slot now sendOk = (slot, false, true))
      ∧ (stopped = false → paused = false → ∀ img, to_img b f w c = .ok img →
          sendOk = true →
        on_frame_arrived stopped paused b f w c slot now sendOk = (some (img, now), false, true))
      ∧ (stopped = false → paused = false → ∀ e, to_img b f w c = .error e →
        on_frame_arrived stopped paused b f w c slot now sendOk = (slot, false, true))
      ∧ (stopped = false → paused = false → sendOk = false →
        on_frame_arrived stopped paused b f w c slot now sendOk = (slot, false, true))
      ∧ (on_frame_arrived stopped paused b f w c slot now sendOk).2.2 = true := by
  intro stopped paused b f w c slot now sendOk
  refine ⟨?_, ?_, ?_, ?_, ?_, ?_⟩
  · intro h
    subst h
    rfl
  · intro h1 h2
    subst h1
    subst h2
    rfl
  · intro h1 h2 img himg hs
    subst h1
    subst h2
    subst hs
    simp [on_frame_arrived, himg]
  · intro h1 h2 e herr
    subst h1
    subst h2
    simp [on_frame_arrived, herr]
  · intro h1 h2 hs
    subst h1
    subst h2
    subst hs
    simp only [on_frame_arrived, Bool.false_eq_true, if_false]
    split
    · rfl
    · rfl
  · unfold on_frame_arrived
    split
    · rfl
    · split
      · rfl
      · split
        · split <;> rfl
        · rfl

/-- Witness for C5: with the stop signal set, the callback publishes
nothing, requests shutdown, and returns success. -/
theorem c5_on_frame_arrived_contract_witness :
    on_frame_arrived true false ⟨0, 0, 0, 0⟩ ⟨1, 1, fun _ _ => 0⟩ ⟨0, 0, 1, 1⟩
      ⟨0, 0, 1, 1⟩ none 7 true = (none, true, true) :=
  (c5_on_frame_arrived_contract true false ⟨0, 0, 0, 0⟩ ⟨1, 1, fun _ _ => 0⟩
    ⟨0, 0, 1, 1⟩ ⟨0, 0, 1, 1⟩ none 7 true).1 rfl

/-- Claim C6: `start` returns the already-running error iff a previously
spawned task exists and is unfinished (`is_running`), in which case the
session state is untouched; on success it resets stopped and paused to
false and spawns one new loop task; and every reachable session has at
most one active capture loop task. -/
theorem c6_start_contract :
    (∀ s : ClientCapture,
      ((s.start).1 = .error .alreadyRunning ↔ s.is_running = true)
      ∧ ((s.start).1 = .error .alreadyRunning → (s.start).2 = s)
      ∧ (s.is_running = false →
          (s.start).1 = .ok ()
          ∧ (s.start).2 = { s with stopped := false, paused := false, tasks := s.tasks ++ [false] }))
    ∧ (∀ s : ClientCapture, Reachable s → activeTasks s ≤ 1) := by
  constructor
  · intro s
    refine ⟨?_, ?_, ?_⟩
    · unfold ClientCapture.start
      by_cases hr : s.is_running = true
      · rw [if_pos hr]
        exact iff_of_true rfl hr
      · rw [if_neg hr]
        exact iff_of_false (fun h => Except.noConfusion h) hr
    · unfold ClientCapture.start
      by_cases hr : s.is_running = true
      · rw [if_pos hr]
        intro _
        rfl
      · rw [if_neg hr]
        intro h
        exact absurd h (fun h' => Except.noConfusion h')
    · intro hr
      unfold ClientCapture.start
      rw [if_neg (by rw [hr]; exact Bool.false_ne_true)]
      exact ⟨rfl, rfl⟩
  · intro s hs
    exact count_false_le_one (reachable_tasksFrontDone hs)

/-- Witness for C6: a session whose last spawned task is still active is
refused a second `start`, and a fresh session satisfies the at-most-one-
active-task invariant. -/
theorem c6_start_contract_witness :
    ((({ ClientCapture.new "wc" "wt" none none with
          tasks := [false] } : ClientCapture).start).1 = .error .alreadyRunning)
    ∧ activeTasks (ClientCapture.new "wc" "wt" none none) ≤ 1 :=
  ⟨(c6_start_contract.1 _).1.mpr rfl,
    c6_start_contract.2 _ (Reachable.init "wc" "wt" none none)⟩

/-- Counterexample to Claim C7 as stated: with window rect (0,0,10,10), a
matching 10x10 frame, and client rect (0,0,2147483653,10), the client rect
is mathematically not contained in the window (0 + 2147483653 > 0 + 10),
yet `to_img` does not fail with the client-outside-window error: the
source's `client_xywh.2 as i32` cast (src/lib.rs line 55) wraps the width
2^31+5 to a negative value and the containment check passes. -/
theorem c7_containment_counterexample :
    to_img ⟨0, 0, 0, 0⟩ ⟨10, 10, fun _ _ => 0⟩ ⟨0, 0, 10, 10⟩ ⟨0, 0, 2147483653, 10⟩
        ≠ .error .clientOutsideWindow
      ∧ (0 : Int) + 2147483653 > 0 + 10 := by
  have he : to_img ⟨0, 0, 0, 0⟩ ⟨10, 10, fun _ _ => 0⟩ ⟨0, 0, 10, 10⟩
      ⟨0, 0, 2147483653, 10⟩ = .error .cropFailed := by rfl
  refine ⟨?_, by decide⟩
  intro h
  rw [he] at h
  exact CropError.noConfusion (Except.error.inj h)

/-- Claim C7 (amended): for geometry whose coordinates and extents are in
the signed 32-bit range with the sums x+width and y+height also in range
(so that the source's `as i32` casts and wrapping additions are exact),
and whose frame matches the window with a nonempty client rect, `to_img`
fails with the client-outside-window error iff client.x < window.x, or
client.y < window.y, or client.x + client.width > window.x + window.width,
or client.y + client.height > window.y + window.height. -/
theorem c7_containment_check :
    ∀ (b : Border) (f : RawFrame) (w c : Rect),
      w.w = f.width → w.h = f.height → c.w ≠ 0 → c.h ≠ 0 →
      w.w < 2147483648 → w.h < 2147483648 → c.w < 2147483648 → c.h < 2147483648 →
      -2147483648 ≤ w.x → -2147483648 ≤ w.y → -2147483648 ≤ c.x → -2147483648 ≤ c.y →
      w.x + (w.w : Int) < 2147483648 → w.y + (w.h : Int) < 2147483648 →
      c.x + (c.w : Int) < 2147483648 → c.y + (c.h : Int) < 2147483648 →
      (to_img b f w c = .error .clientOutsideWindow
        ↔ (c.x < w.x ∨ c.y < w.y ∨ c.x + (c.w : Int) > w.x + (w.w : Int)
            ∨ c.y + (c.h : Int) > w.y + (w.h : Int))) := by
  intro b f w c h1 h2 h3 h4 hww hwh hcw hch hwx hwy hcx hcy hsw hsh hscx hscy
  rw [to_img_eq_clientOutsideWindow_iff]
  rw [toI32_eq_self hcw, toI32_eq_self hww, toI32_eq_self hch, toI32_eq_self hwh]
  rw [wrapI32_eq_self (show -2147483648 ≤ c.x + (c.w : Int) by omega) hscx,
      wrapI32_eq_self (show -2147483648 ≤ w.x + (w.w : Int) by omega) hsw,
      wrapI32_eq_self (show -2147483648 ≤ c.y + (c.h : Int) by omega) hscy,
      wrapI32_eq_self (show -2147483648 ≤ w.y + (w.h : Int) by omega) hsh]
  simp [h1, h2, h3, h4]

/-- Witness for C7 (amended) at a concrete in-range geometry: a client rect
poking above the window (client.y = -5 < window.y = 0) is rejected with the
client-outside-window error. -/
theorem c7_containment_check_witness :
    to_img ⟨0, 0, 0, 0⟩ ⟨100, 100, fun _ _ => 0⟩ ⟨0, 0, 100, 100⟩ ⟨0, -5, 50, 50⟩
      = .error .clientOutsideWindow :=
  (c7_containment_check ⟨0, 0, 0, 0⟩ ⟨100, 100, fun _ _ => 0⟩ ⟨0, 0, 100, 100⟩
    ⟨0, -5, 50, 50⟩ rfl rfl (by decide) (by decide) (by decide) (by decide)
    (by decide) (by decide) (by decide) (by decide) (by decide) (by decide)
    (by decide) (by decide) (by decide) (by decide)).mpr (by decide)

/-- Claim C8: `to_img` fails with the zero-client-area error iff the client
rect's width or height is 0, given that the frame matches the window rect
(the check runs after the frame-size check), and with no condition on the
containment of the client rect (the check runs before the containment
check). -/
theorem c8_zero_area_check :
    ∀ (b : Border) (f : RawFrame) (w c : Rect),
      to_img b f w c = .error .zeroClientArea
        ↔ (f.width = w.w ∧ f.height = w.h ∧ (c.w = 0 ∨ c.h = 0)) := by
  intro b f w c
  rw [to_img_eq_zeroClientArea_iff]
  constructor
  · rintro ⟨ha, hb, hc⟩
    exact ⟨ha.symm, hb.symm, hc⟩
  · rintro ⟨ha, hb, hc⟩
    exact ⟨ha.symm, hb.symm, hc⟩

/-- Claim C9: `get_img` is a pure read of the delivery channel: it leaves
the session state (in particular the channel slot) unchanged, and a second
`get_img` with no intervening publication behaves exactly as if the first
read had not happened, observing the same sample. -/
theorem c9_get_img_pure_read :
    ∀ (s : ClientCapture) (t1 t2 : Nat),
      (s.get_img t1).2 = s
      ∧ ((s.get_img t1).2.get_img t2).1 = (s.get_img t2).1
      ∧ ((s.get_img t1).2.get_img t2).2.slot = s.slot := by
  intro s t1 t2
  refine ⟨get_img_snd s t1, ?_, ?_⟩
  · rw [get_img_snd s t1]
  · rw [get_img_snd s t1, get_img_snd s t2]

/-- Claim C10: immediately after `new`, for every choice of constructor
arguments: `is_running` is false, `get_img` fails with the no-image error
at any read time, the pause and stop channels hold false, no task has been
spawned, and no sample has been published. -/
theorem c10_new_initial_state :
    ∀ (wc wt : String) (b : Option Border) (d : Option Nat) (now : Nat),
      (ClientCapture.new wc wt b d).is_running = false
      ∧ ((ClientCapture.new wc wt b d).get_img now).1 = .error .noImageYet
      ∧ (ClientCapture.new wc wt b d).paused = false
      ∧ (ClientCapture.new wc wt b d).stopped = false
      ∧ (ClientCapture.new wc wt b d).tasks = []
      ∧ (ClientCapture.new wc wt b d).slot = none :=
  fun _ _ _ _ _ => ⟨rfl, rfl, rfl, rfl, rfl, rfl⟩

end ClientCaptureSpec
